import Mathlib

/-!
Shallow embedding of the AFFiNE socket.io data source
(`createAffineDataSource` and `setupAffineAwareness`), which bridges a
local CRDT document replica and an awareness (presence) replica to a
server over a socket.io channel.

Side effects of the TypeScript code (socket emits, listener
registration/deregistration, console output, callback invocations,
awareness applications) are modelled as an explicit trace of `Event`
values, in the order the code performs them.  The socket.io channel
itself is modelled as a small state machine (`SocketState`,
`stepEvent`): messages emitted while the socket is connected go on the
wire; messages emitted while it is disconnected are held in the
channel's send buffer and flushed on the next connect, matching the
channel's documented buffering semantics.

The base64 utilities (`uint8ArrayToBase64`, `base64ToUint8Array`, from
`./sync-socket-io/utils`) and the awareness engine
(`encodeAwarenessUpdate` from `y-protocols/awareness`) are external to
the embedded file; they are modelled abstractly, with the asynchronous
encoder allowed to fail (`Except`) as the error-handling design
requires.
-/

namespace AffineSync

/-- Modelled from the spec: the base64 encode/decode utilities imported
from `./sync-socket-io/utils`, a repository file not present here.  The
spec describes them as an asynchronous binary-to-base64 encoder (which
may fail with an EncodingError, modelled as `Except String`) and a
base64-to-binary decoder.  Bytes are modelled as `List Nat`. -/
structure B64 where
  uint8ArrayToBase64 : List Nat → Except String String
  base64ToUint8Array : String → List Nat

/-- The yjs `Doc`: only its globally unique identifier `guid` is read by
the embedded code. -/
structure Doc where
  guid : String
  deriving DecidableEq

/-- Modelled from the spec: the external CRDT awareness engine
(`y-protocols/awareness`).  The embedded code reads the local client id
(`awareness.clientID`) and asks the engine to encode a diff scoped to a
list of client ids (`encodeAwarenessUpdate`), modelled as an abstract
function from the client-id list to bytes. -/
structure Awareness where
  clientID : Nat
  encodeAwarenessUpdate : List Nat → List Nat

/-- Modelled from the spec: the `AwarenessChanges` type from
`./sync-socket-io/utils`: three client-id sets — added, updated,
removed — describing one local awareness transition. -/
structure AwarenessChanges where
  added : List Nat
  updated : List Nat
  removed : List Nat

/-- `Object.values(changes).reduce((res, cur) => [...res, ...cur])`:
flattens the added/updated/removed client-id sets into one combined
list, in field order. -/
def flattenChanges (changes : AwarenessChanges) : List Nat :=
  changes.added ++ changes.updated ++ changes.removed

/-- Payload of an emitted socket message, mirroring the object shapes
the source passes to `socket.emit`.  `awarenessMsg` keeps the two
room-scoping fields optional because the source sends `workspaceId` on
the local-change path but `guid` on the new-client-init path. -/
inductive Payload where
  | str (s : String)
  | docLoad (workspaceId : String) (guid : String) (stateVector : Option String)
  | clientUpdate (workspaceId : String) (guid : String) (update : String)
  | awarenessMsg (workspaceId : Option String) (guid : Option String)
      (awarenessUpdate : String)
  deriving DecidableEq

/-- Identities of the four handler closures the source registers, so the
trace can record which handler a `socket.on`/`socket.off`/
`awareness.on`/`awareness.off` call refers to. -/
inductive HandlerId where
  | onUpdate
  | awarenessBroadcast
  | newClientInit
  | awarenessChange
  deriving DecidableEq

/-- One observable side effect of the embedded code, in program order. -/
inductive Event where
  | connect
  | disconnect
  | emit (event : String) (payload : Payload)
  | socketOn (event : String) (h : HandlerId)
  | socketOff (event : String) (h : HandlerId)
  | awarenessOn (h : HandlerId)
  | awarenessOff (h : HandlerId)
  | consoleWarn (msg : String)
  | consoleError
  | callbackInvoke (guid : String) (update : List Nat)
  | applyAwareness (update : List Nat) (origin : String)
  deriving DecidableEq

/-- The acknowledgement value the server passes to the `doc-load` ack
callback: `Error | string | null`. -/
inductive DocLoadAck where
  | err (e : String)
  | nullAck
  | strAck (s : String)
  deriving DecidableEq

/-- What the `queryDocState` promise resolves to: a decoded byte-string
update, or the literal `false` sentinel. -/
inductive QueryDocStateResult where
  | update (bytes : List Nat)
  | falseSentinel
  deriving DecidableEq

/-- The `doc-load` ack callback:
`update instanceof Error` rejects with the error; otherwise
`resolve(update ? base64ToUint8Array(update) : false)` — `null` and the
empty string are falsy, so they resolve to the `false` sentinel, and a
non-empty string resolves to its base64 decoding. -/
def docLoadAckHandler (b64 : B64) : DocLoadAck → Except String QueryDocStateResult
  | .err e => .error e
  | .nullAck => .ok .falseSentinel
  | .strAck s =>
      if s = "" then .ok .falseSentinel
      else .ok (.update (b64.base64ToUint8Array s))

/-- `queryDocState(guid, options)`: optionally base64-encodes the state
vector (rejecting if that encode fails), then emits one `doc-load`
request carrying `(workspaceId = rootDoc.guid, guid, stateVector?)`.
The promise settlement is a function of the channel acknowledgement,
returned here alongside the emitted message. -/
def queryDocState (b64 : B64) (rootDoc : Doc) (guid : String)
    (stateVector : Option (List Nat)) :
    Except String (Event × (DocLoadAck → Except String QueryDocStateResult)) :=
  match stateVector with
  | some sv =>
      match b64.uint8ArrayToBase64 sv with
      | .error e => .error e
      | .ok svEncoded =>
          .ok (.emit "doc-load" (.docLoad rootDoc.guid guid (some svEncoded)),
               docLoadAckHandler b64)
  | none =>
      .ok (.emit "doc-load" (.docLoad rootDoc.guid guid none),
           docLoadAckHandler b64)

/-- `sendDocUpdate(guid, update)`: awaits the base64 encode of the
update (so an encode failure rejects the returned promise), emits one
`client-update` message tagged `(workspaceId = rootDoc.guid, guid)`,
and resolves.  The emit carries no acknowledgement callback, so the
result never depends on any server response. -/
def sendDocUpdate (b64 : B64) (rootDoc : Doc) (guid : String)
    (update : List Nat) : Except String (List Event) :=
  match b64.uint8ArrayToBase64 update with
  | .error e => .error e
  | .ok encoded =>
      .ok [.emit "client-update" (.clientUpdate rootDoc.guid guid encoded)]

/-- An inbound `server-update` message. -/
structure ServerUpdateMsg where
  workspaceId : String
  guid : String
  update : String
  deriving DecidableEq

/-- The inbound `server-update` listener registered by `onDocUpdate`:
if `message.workspaceId === rootDoc.guid`, invokes
`callback(message.guid, base64ToUint8Array(message.update))`, otherwise
does nothing. -/
def onUpdate (b64 : B64) (rootDoc : Doc) (message : ServerUpdateMsg) :
    List Event :=
  if message.workspaceId = rootDoc.guid then
    [.callbackInvoke message.guid (b64.base64ToUint8Array message.update)]
  else []

/-- An inbound `server-awareness-broadcast` message. -/
structure AwarenessBroadcastMsg where
  workspaceId : String
  awarenessUpdate : String
  deriving DecidableEq

/-- The `server-awareness-broadcast` handler: returns early when the
message's `workspaceId` differs from `rootDoc.guid`; otherwise applies
the base64-decoded payload to the local awareness replica with origin
tag `"server"`. -/
def awarenessBroadcast (b64 : B64) (rootDoc : Doc)
    (msg : AwarenessBroadcastMsg) : List Event :=
  if msg.workspaceId ≠ rootDoc.guid then []
  else [.applyAwareness (b64.base64ToUint8Array msg.awarenessUpdate) "server"]

/-- The local awareness change listener: returns early when the change's
origin is `"server"`; otherwise flattens the change sets, encodes a diff
scoped to exactly those client ids, base64-encodes it and emits one
`awareness-update` carrying `workspaceId = rootDoc.guid`.  An encode
failure is caught and logged (`console.error`), never rethrown. -/
def awarenessUpdate (b64 : B64) (rootDoc : Doc) (awareness : Awareness)
    (changes : AwarenessChanges) (origin : String) : List Event :=
  if origin = "server" then []
  else
    match b64.uint8ArrayToBase64
        (awareness.encodeAwarenessUpdate (flattenChanges changes)) with
    | .ok encodedUpdate =>
        [.emit "awareness-update"
          (.awarenessMsg (some rootDoc.guid) none encodedUpdate)]
    | .error _ => [.consoleError]

/-- The `new-client-awareness-init` handler: encodes the awareness entry
scoped to only the local client's own id (`[awareness.clientID]`),
base64-encodes it and emits one `awareness-update` — carrying the room
under the field `guid`, not `workspaceId`.  An encode failure is caught
and logged, never rethrown. -/
def newClientAwarenessInitHandler (b64 : B64) (rootDoc : Doc)
    (awareness : Awareness) : List Event :=
  match b64.uint8ArrayToBase64
      (awareness.encodeAwarenessUpdate [awareness.clientID]) with
  | .ok encodedAwarenessUpdate =>
      [.emit "awareness-update"
        (.awarenessMsg none (some rootDoc.guid) encodedAwarenessUpdate)]
  | .error _ => [.consoleError]

/-- The side effects of `setupAffineAwareness`, in program order:
register the `server-awareness-broadcast` handler, register the
`new-client-awareness-init` handler, attach the local awareness change
listener, then emit `awareness-init` for the room. -/
def setupAffineAwarenessTrace (rootDoc : Doc) : List Event :=
  [ .socketOn "server-awareness-broadcast" .awarenessBroadcast,
    .socketOn "new-client-awareness-init" .newClientInit,
    .awarenessOn .awarenessChange,
    .emit "awareness-init" (.str rootDoc.guid) ]

/-- The side effects of the teardown closure `setupAffineAwareness`
returns, in program order: detach the awareness change listener, then
deregister the broadcast handler, then the new-client-init handler. -/
def destroyAwarenessTrace : List Event :=
  [ .awarenessOff .awarenessChange,
    .socketOff "server-awareness-broadcast" .awarenessBroadcast,
    .socketOff "new-client-awareness-init" .newClientInit ]

/-- The activation side effects of `onDocUpdate(callback)`, in program
order: connect the socket, emit the `client-handshake` carrying the
room id, register the `server-update` listener, then run
`setupAffineAwareness`. -/
def onDocUpdateTrace (rootDoc : Doc) : List Event :=
  [ .connect,
    .emit "client-handshake" (.str rootDoc.guid),
    .socketOn "server-update" .onUpdate ]
  ++ setupAffineAwarenessTrace rootDoc

/-- The side effects of one invocation of the teardown closure
`onDocUpdate` returns, in program order: emit `client-leave` for the
room, deregister the `server-update` listener, run the awareness
teardown, disconnect the socket. -/
def onDocUpdateTeardownTrace (rootDoc : Doc) : List Event :=
  [ .emit "client-leave" (.str rootDoc.guid),
    .socketOff "server-update" .onUpdate ]
  ++ destroyAwarenessTrace
  ++ [ .disconnect ]

/-- The adapter object `createAffineDataSource` returns: its operations
and its handler closures.  All of them close over `rootDoc` (and the
base64 utilities and awareness replica), never over the `id`
argument. -/
structure DataSource where
  queryDocStateOp : String → Option (List Nat) →
    Except String (Event × (DocLoadAck → Except String QueryDocStateResult))
  sendDocUpdateOp : String → List Nat → Except String (List Event)
  onDocUpdateActivation : List Event
  onDocUpdateTeardown : List Event
  serverUpdateHandler : ServerUpdateMsg → List Event
  awarenessBroadcastHandler : AwarenessBroadcastMsg → List Event
  awarenessChangeHandler : AwarenessChanges → String → List Event
  newClientInitHandler : List Event

/-- `createAffineDataSource(id, rootDoc, awareness)`: warns on the
console when `id !== rootDoc.guid` (its only use of `id`), then returns
the adapter.  The result pairs the construction-time console trace with
the adapter. -/
def createAffineDataSource (b64 : B64) (id : String) (rootDoc : Doc)
    (awareness : Awareness) : List Event × DataSource :=
  ( (if id ≠ rootDoc.guid then
      [.consoleWarn "important!! please use doc.guid as roomName"]
     else []),
    ⟨fun guid options => queryDocState b64 rootDoc guid options,
     fun guid update => sendDocUpdate b64 rootDoc guid update,
     onDocUpdateTrace rootDoc,
     onDocUpdateTeardownTrace rootDoc,
     fun message => onUpdate b64 rootDoc message,
     fun msg => awarenessBroadcast b64 rootDoc msg,
     fun changes origin => awarenessUpdate b64 rootDoc awareness changes origin,
     newClientAwarenessInitHandler b64 rootDoc awareness⟩ )

/-- Modelled from the spec: the state of the external socket.io channel.
`wire` holds the messages actually transmitted, in send order; the
channel buffers messages emitted while disconnected (`buffered`) and
flushes them on the next connect; `listeners` holds the active
(event, handler) registrations. -/
structure SocketState where
  connected : Bool
  wire : List (String × Payload)
  buffered : List (String × Payload)
  listeners : List (String × HandlerId)
  deriving DecidableEq

/-- The channel state before any activation: disconnected, nothing sent,
nothing buffered, no listeners. -/
def socketInit : SocketState :=
  { connected := false, wire := [], buffered := [], listeners := [] }

/-- Modelled from the spec: how the external channel reacts to each
side effect of the embedded code.  `connect` flushes the send buffer;
`emit` transmits when connected and buffers otherwise; `disconnect` and
`socket.off` on an absent handler are no-ops (none of these operations
can fail). -/
def stepEvent (s : SocketState) : Event → SocketState
  | .connect =>
      { s with connected := true, wire := s.wire ++ s.buffered, buffered := [] }
  | .disconnect => { s with connected := false }
  | .emit ev p =>
      if s.connected then { s with wire := s.wire ++ [(ev, p)] }
      else { s with buffered := s.buffered ++ [(ev, p)] }
  | .socketOn ev h => { s with listeners := s.listeners ++ [(ev, h)] }
  | .socketOff ev h =>
      { s with listeners := s.listeners.filter (fun r => r ≠ (ev, h)) }
  | _ => s

/-- Run a trace of side effects through the channel state machine. -/
def runEvents (trace : List Event) (s : SocketState) : SocketState :=
  trace.foldl stepEvent s

/-- How many messages of the given type a wire log contains. -/
def countMsg (name : String) (wire : List (String × Payload)) : Nat :=
  (wire.filter (fun m => m.1 = name)).length

/-- The handlers a trace registers, in order (socket and awareness
registrations together). -/
def regOrder (trace : List Event) : List HandlerId :=
  trace.filterMap fun e =>
    match e with
    | .socketOn _ h => some h
    | .awarenessOn h => some h
    | _ => none

/-- The handlers a trace deregisters, in order. -/
def deregOrder (trace : List Event) : List HandlerId :=
  trace.filterMap fun e =>
    match e with
    | .socketOff _ h => some h
    | .awarenessOff h => some h
    | _ => none

/-- A concrete, always-succeeding codec used to instantiate theorems at
concrete inputs. -/
def sampleB64 : B64 where
  uint8ArrayToBase64 bytes := .ok (String.intercalate "," (bytes.map toString))
  base64ToUint8Array s := (s.splitOn ",").filterMap String.toNat?

/-- A concrete codec whose encoder always fails, used to instantiate the
error-path theorems. -/
def failB64 : B64 where
  uint8ArrayToBase64 _ := .error "encode failure"
  base64ToUint8Array _ := []

/-- A concrete awareness replica used to instantiate theorems. -/
def sampleAwareness : Awareness where
  clientID := 7
  encodeAwarenessUpdate clients := clients

end AffineSync

namespace AffineSync

/-- C1: the result of `queryDocState` is determined by the channel
acknowledgement for the emitted `doc-load` request: an `Error` ack
rejects with that error, a `null` ack resolves to the `false` sentinel,
and a non-empty base64 string ack resolves to its base64 decoding. -/
theorem queryDocState_result_by_ack (b64 : B64) (rootDoc : Doc) (guid : String)
    (stateVector : Option (List Nat)) (msg : Event)
    (k : DocLoadAck → Except String QueryDocStateResult)
    (h : queryDocState b64 rootDoc guid stateVector = .ok (msg, k))
    (e s : String) (hs : s ≠ "") :
    k (.err e) = .error e ∧
    k .nullAck = .ok .falseSentinel ∧
    k (.strAck s) = .ok (.update (b64.base64ToUint8Array s)) := by
  have hk : k = docLoadAckHandler b64 := by
    cases stateVector with
    | none =>
        simp only [queryDocState, Except.ok.injEq, Prod.mk.injEq] at h
        exact h.2.symm
    | some sv =>
        rcases henc : b64.uint8ArrayToBase64 sv with e' | sv'
        · simp [queryDocState, henc] at h
        · simp only [queryDocState, henc, Except.ok.injEq, Prod.mk.injEq] at h
          exact h.2.symm
  subst hk
  exact ⟨rfl, rfl, by simp [docLoadAckHandler, hs]⟩

/-- C1 witness: instantiation at a concrete room, doc and codec. -/
theorem queryDocState_result_by_ack_witness :
    docLoadAckHandler sampleB64 (.err "boom") = .error "boom" ∧
    docLoadAckHandler sampleB64 .nullAck = .ok .falseSentinel ∧
    docLoadAckHandler sampleB64 (.strAck "7") =
      .ok (.update (sampleB64.base64ToUint8Array "7")) :=
  queryDocState_result_by_ack sampleB64 ⟨"room"⟩ "doc1" none
    (.emit "doc-load" (.docLoad "room" "doc1" none))
    (docLoadAckHandler sampleB64) rfl "boom" "7" (by decide)

/-- C2: activating `onDocUpdate` and then invoking the returned teardown
twice transmits exactly one `client-leave` message in total: the first
invocation sends it while connected; the second invocation's emit
happens after `socket.disconnect()`, so the channel only buffers it and
it never reaches the wire.  Every step of the second invocation is a
total, non-failing channel operation, so the double call produces no
error. -/
theorem teardown_twice_single_leave (rootDoc : Doc) :
    countMsg "client-leave"
      (runEvents
        (onDocUpdateTrace rootDoc ++
          (onDocUpdateTeardownTrace rootDoc ++ onDocUpdateTeardownTrace rootDoc))
        socketInit).wire = 1 := by
  rfl

/-- C3: the inbound `server-update` listener silently discards every
message whose `workspaceId` differs from the active room (`rootDoc.guid`)
— the callback is never invoked, so the local replica is untouched —
and for a matching message invokes the callback with the message's
`guid` and the base64-decoded update. -/
theorem onUpdate_room_filter (b64 : B64) (rootDoc : Doc) (m : ServerUpdateMsg) :
    (m.workspaceId ≠ rootDoc.guid → onUpdate b64 rootDoc m = []) ∧
    (m.workspaceId = rootDoc.guid →
      onUpdate b64 rootDoc m =
        [.callbackInvoke m.guid (b64.base64ToUint8Array m.update)]) := by
  constructor <;> intro h <;> simp [onUpdate, h]

/-- C3 witness: a mismatched message produces no effect; a matching one
invokes the callback with the decoded payload. -/
theorem onUpdate_room_filter_witness :
    onUpdate sampleB64 ⟨"room"⟩ ⟨"other", "g1", "7"⟩ = [] ∧
    onUpdate sampleB64 ⟨"room"⟩ ⟨"room", "g1", "7"⟩ =
      [.callbackInvoke "g1" (sampleB64.base64ToUint8Array "7")] :=
  ⟨(onUpdate_room_filter sampleB64 ⟨"room"⟩ ⟨"other", "g1", "7"⟩).1 (by decide),
   (onUpdate_room_filter sampleB64 ⟨"room"⟩ ⟨"room", "g1", "7"⟩).2 rfl⟩

/-- C4: a local awareness change with origin `"server"` emits nothing
(no echo loop); a change with any other origin flattens the
added/updated/removed client-id sets into one combined set, encodes a
diff scoped to exactly those ids, base64-encodes it, and emits exactly
one `awareness-update` for the room. -/
theorem awarenessUpdate_echo_and_payload (b64 : B64) (rootDoc : Doc)
    (awareness : Awareness) (changes : AwarenessChanges) (origin : String) :
    (origin = "server" →
      awarenessUpdate b64 rootDoc awareness changes origin = []) ∧
    (origin ≠ "server" →
      ∀ encoded,
        b64.uint8ArrayToBase64
            (awareness.encodeAwarenessUpdate
              (changes.added ++ changes.updated ++ changes.removed)) =
          .ok encoded →
        awarenessUpdate b64 rootDoc awareness changes origin =
          [.emit "awareness-update"
            (.awarenessMsg (some rootDoc.guid) none encoded)]) := by
  refine ⟨fun h => by simp [awarenessUpdate, h], fun h encoded henc => ?_⟩
  have henc' : b64.uint8ArrayToBase64
      (awareness.encodeAwarenessUpdate (flattenChanges changes)) = .ok encoded := henc
  simp [awarenessUpdate, h, henc']

/-- C4 witness: a server-origin change emits nothing; a local-origin
change emits one `awareness-update` scoped to the flattened ids. -/
theorem awarenessUpdate_echo_and_payload_witness :
    awarenessUpdate sampleB64 ⟨"room"⟩ sampleAwareness ⟨[1], [2], [3]⟩ "server" = [] ∧
    awarenessUpdate sampleB64 ⟨"room"⟩ sampleAwareness ⟨[1], [2], [3]⟩ "local" =
      [.emit "awareness-update" (.awarenessMsg (some "room") none "1,2,3")] :=
  ⟨(awarenessUpdate_echo_and_payload sampleB64 ⟨"room"⟩ sampleAwareness
      ⟨[1], [2], [3]⟩ "server").1 rfl,
   (awarenessUpdate_echo_and_payload sampleB64 ⟨"room"⟩ sampleAwareness
      ⟨[1], [2], [3]⟩ "local").2 (by decide) "1,2,3" rfl⟩

/-- C5: the `new-client-awareness-init` handler emits exactly one
outbound `awareness-update` whose payload is the encoded awareness
entry scoped to only the local client's own id (`awareness.clientID`),
not the whole awareness map. -/
theorem newClientInit_reannounces_self (b64 : B64) (rootDoc : Doc)
    (awareness : Awareness) (encoded : String)
    (h : b64.uint8ArrayToBase64
        (awareness.encodeAwarenessUpdate [awareness.clientID]) = .ok encoded) :
    newClientAwarenessInitHandler b64 rootDoc awareness =
      [.emit "awareness-update" (.awarenessMsg none (some rootDoc.guid) encoded)] := by
  simp [newClientAwarenessInitHandler, h]

/-- C5 witness: with the sample replica (clientID 7) exactly one
`awareness-update` carrying the self-scoped entry is emitted. -/
theorem newClientInit_reannounces_self_witness :
    newClientAwarenessInitHandler sampleB64 ⟨"room"⟩ sampleAwareness =
      [.emit "awareness-update" (.awarenessMsg none (some "room") "7")] :=
  newClientInit_reannounces_self sampleB64 ⟨"room"⟩ sampleAwareness "7" rfl

/-- C6: when the base64 encoder fails, both awareness paths (the
local-change listener and the new-client-init handler) catch the error
and only log it — their traces contain a `console.error` and no emit,
and they return normally — while `sendDocUpdate` surfaces the same kind
of failure as a rejected result to its caller. -/
theorem encodeError_asymmetry (b64 : B64) (rootDoc : Doc)
    (awareness : Awareness) (changes : AwarenessChanges) (origin : String)
    (guid : String) (update : List Nat) (eA eB eU : String)
    (hO : origin ≠ "server")
    (hA : b64.uint8ArrayToBase64
        (awareness.encodeAwarenessUpdate (flattenChanges changes)) = .error eA)
    (hB : b64.uint8ArrayToBase64
        (awareness.encodeAwarenessUpdate [awareness.clientID]) = .error eB)
    (hU : b64.uint8ArrayToBase64 update = .error eU) :
    awarenessUpdate b64 rootDoc awareness changes origin = [.consoleError] ∧
    newClientAwarenessInitHandler b64 rootDoc awareness = [.consoleError] ∧
    sendDocUpdate b64 rootDoc guid update = .error eU := by
  refine ⟨?_, ?_, ?_⟩
  · simp [awarenessUpdate, hO, hA]
  · simp [newClientAwarenessInitHandler, hB]
  · simp [sendDocUpdate, hU]

/-- C6 witness: with an always-failing encoder, both awareness paths
log and emit nothing, while `sendDocUpdate` rejects. -/
theorem encodeError_asymmetry_witness :
    awarenessUpdate failB64 ⟨"room"⟩ sampleAwareness ⟨[1], [], []⟩ "local" =
      [.consoleError] ∧
    newClientAwarenessInitHandler failB64 ⟨"room"⟩ sampleAwareness =
      [.consoleError] ∧
    sendDocUpdate failB64 ⟨"room"⟩ "g1" [1] = .error "encode failure" :=
  encodeError_asymmetry failB64 ⟨"room"⟩ sampleAwareness ⟨[1], [], []⟩ "local"
    "g1" [1] "encode failure" "encode failure" "encode failure"
    (by decide) rfl rfl rfl

/-- C7: `sendDocUpdate` base64-encodes the update and emits exactly one
`client-update` tagged `(workspaceId = rootDoc.guid, guid)`, resolving
once that local encode and emit are done — its result is a function of
local data only, with no acknowledgement from the server involved — and
an encode failure becomes a rejection, never a resolved result. -/
theorem sendDocUpdate_fire_and_forget (b64 : B64) (rootDoc : Doc)
    (guid : String) (update : List Nat) :
    (∀ encoded, b64.uint8ArrayToBase64 update = .ok encoded →
      sendDocUpdate b64 rootDoc guid update =
        .ok [.emit "client-update" (.clientUpdate rootDoc.guid guid encoded)]) ∧
    (∀ e, b64.uint8ArrayToBase64 update = .error e →
      sendDocUpdate b64 rootDoc guid update = .error e) := by
  constructor <;> intro x hx <;> simp [sendDocUpdate, hx]

/-- C7 witness: a successful encode yields exactly the tagged emit; a
failing encode yields a rejection. -/
theorem sendDocUpdate_fire_and_forget_witness :
    sendDocUpdate sampleB64 ⟨"room"⟩ "g1" [1, 2] =
      .ok [.emit "client-update" (.clientUpdate "room" "g1" "1,2")] ∧
    sendDocUpdate failB64 ⟨"room"⟩ "g1" [1, 2] = .error "encode failure" :=
  ⟨(sendDocUpdate_fire_and_forget sampleB64 ⟨"room"⟩ "g1" [1, 2]).1 "1,2" rfl,
   (sendDocUpdate_fire_and_forget failB64 ⟨"room"⟩ "g1" [1, 2]).2
     "encode failure" rfl⟩

/-- C8: `onDocUpdate` performs its activation side effects in exactly
the order connect, `client-handshake` emit, `server-update`
registration, awareness setup (its two handler registrations, the
change listener, then the `awareness-init` emit); and its teardown
performs, in order: `client-leave` emit, `server-update`
deregistration, the awareness teardown, disconnect. -/
theorem onDocUpdate_effect_order (rootDoc : Doc) :
    onDocUpdateTrace rootDoc =
      [ .connect,
        .emit "client-handshake" (.str rootDoc.guid),
        .socketOn "server-update" .onUpdate,
        .socketOn "server-awareness-broadcast" .awarenessBroadcast,
        .socketOn "new-client-awareness-init" .newClientInit,
        .awarenessOn .awarenessChange,
        .emit "awareness-init" (.str rootDoc.guid) ] ∧
    onDocUpdateTeardownTrace rootDoc =
      [ .emit "client-leave" (.str rootDoc.guid),
        .socketOff "server-update" .onUpdate,
        .awarenessOff .awarenessChange,
        .socketOff "server-awareness-broadcast" .awarenessBroadcast,
        .socketOff "new-client-awareness-init" .newClientInit,
        .disconnect ] :=
  ⟨rfl, rfl⟩

/-- C9 counterexample: the awareness teardown does NOT deregister in the
reverse of the registration order.  Registration order is broadcast
handler, new-client-init handler, change listener; exact reverse would
be change listener, new-client-init handler, broadcast handler; the
code deregisters change listener, broadcast handler, new-client-init
handler. -/
theorem awareness_teardown_not_reverse :
    deregOrder destroyAwarenessTrace ≠
      (regOrder (setupAffineAwarenessTrace ⟨"room"⟩)).reverse := by
  decide

/-- C9 amended: the awareness teardown deregisters the local change
listener first (the reverse of its position, which was registered
last), but then removes the `server-awareness-broadcast` and
`new-client-awareness-init` handlers in their original registration
order, not reversed. -/
theorem awareness_teardown_order (rootDoc : Doc) :
    regOrder (setupAffineAwarenessTrace rootDoc) =
      [.awarenessBroadcast, .newClientInit, .awarenessChange] ∧
    deregOrder destroyAwarenessTrace =
      [.awarenessChange, .awarenessBroadcast, .newClientInit] :=
  ⟨rfl, rfl⟩

/-- C10: the `id` argument of `createAffineDataSource` influences no
wire behavior: for any two ids and the same root doc and awareness, the
returned adapters — every operation, activation/teardown trace, and
inbound-filter handler — are identical, and a mismatch between `id` and
`rootDoc.guid` produces only a console warning at construction time. -/
theorem id_does_not_influence_wire (b64 : B64) (rootDoc : Doc)
    (awareness : Awareness) (id1 id2 : String) :
    (createAffineDataSource b64 id1 rootDoc awareness).2 =
      (createAffineDataSource b64 id2 rootDoc awareness).2 ∧
    (id1 ≠ rootDoc.guid →
      (createAffineDataSource b64 id1 rootDoc awareness).1 =
        [.consoleWarn "important!! please use doc.guid as roomName"]) ∧
    (id1 = rootDoc.guid →
      (createAffineDataSource b64 id1 rootDoc awareness).1 = []) := by
  refine ⟨rfl, ?_, ?_⟩ <;> intro h <;> simp [createAffineDataSource, h]

/-- C10 witness: a wrong id and the correct id yield identical adapters,
and the wrong id yields only the console warning. -/
theorem id_does_not_influence_wire_witness :
    (createAffineDataSource sampleB64 "wrong-id" ⟨"room"⟩ sampleAwareness).2 =
      (createAffineDataSource sampleB64 "room" ⟨"room"⟩ sampleAwareness).2 ∧
    (createAffineDataSource sampleB64 "wrong-id" ⟨"room"⟩ sampleAwareness).1 =
      [.consoleWarn "important!! please use doc.guid as roomName"] :=
  ⟨(id_does_not_influence_wire sampleB64 ⟨"room"⟩ sampleAwareness "wrong-id" "room").1,
   (id_does_not_influence_wire sampleB64 ⟨"room"⟩ sampleAwareness "wrong-id" "room").2.1
     (by decide)⟩

end AffineSync
